import Mathlib

/-
Verification of the tunnel peer-to-peer file-transfer repository.

The development shallowly embeds the parts of the code that the checked
properties are about:

* the sender chunking loop (src/client/sender.py, Sender.__send_file),
* the receiver per-message handler, part flushing, merge and finalization
  (src/client/receiver.py, on_message / Receiver.__merge_file_parts /
  Receiver.__finalize_transfer),
* the CHUNKS_PER_PART computation (src/client/receiver.py, Receiver.__init__,
  together with SessionConfig.chunk_size_megabytes in
  src/client/utils/communication.py),
* the signalling server session map and its handlers
  (src/server/handlers/*.py and src/server/__main__.py).

Bytes are modelled as Nat, file contents as List Nat.  The streaming SHA-256
digest is an external black box in the design (an arbitrary function from
contents to a digest value), so it is modelled as a parameter of the receiver
configuration.  File paths used by the receiver are the destination filename
and the derived part names f-string filename + ".part" + N; these are pairwise
distinct strings, modelled by the inductive type FileId.  The file system is a
finite map from FileId to contents.  Asynchronous scheduling is elided: the
data channel is reliable and ordered, so the chunk stream is modelled as the
list of frames in emission order.
-/

/-- Identifier of a file the receiver touches: the destination file named by
the metadata filename, or the part file filename + ".part" + n written by
save_file in src/client/receiver.py. These paths are pairwise distinct. -/
inductive FileId
  | dest
  | part (n : Nat)
deriving DecidableEq

/-- The receiver-side file system: a map from file identifiers to contents. -/
def FS : Type := FileId → Option (List Nat)

/-- The empty working directory. -/
def FS.empty : FS := fun _ => none

/-- Writing a file (open(path, "wb") followed by writing the contents):
creates or truncates-and-replaces. -/
def FS.write (fs : FS) (k : FileId) (v : List Nat) : FS :=
  fun x => if x = k then some v else fs x

/-- Removing a file (os.remove); removing an absent file is the identity here,
used only where the source guards with os.path.exists or where presence is
otherwise established. -/
def FS.remove (fs : FS) (k : FileId) : FS :=
  fun x => if x = k then none else fs x

theorem FS.write_self (fs : FS) (k : FileId) (v : List Nat) :
    fs.write k v k = some v := by
  simp [FS.write]

theorem FS.write_ne (fs : FS) (k : FileId) (v : List Nat) (x : FileId)
    (h : x ≠ k) : fs.write k v x = fs x := by
  simp [FS.write, h]

theorem FS.remove_ne (fs : FS) (k : FileId) (x : FileId) (h : x ≠ k) :
    fs.remove k x = fs x := by
  simp [FS.remove, h]

theorem FS.remove_self (fs : FS) (k : FileId) : fs.remove k k = none := by
  simp [FS.remove]

/-- Ceiling division, ceil(a / b) for b at least 1; this is the
math.ceil(filesize / CHUNK_SIZE_BYTES) computation of both clients. -/
def ceilDiv (a b : Nat) : Nat := (a + b - 1) / b

/-- The chunk sequence produced by the sender read loop in
Sender.__send_file (src/client/sender.py lines 172-188): repeatedly
file.read(CHUNK_SIZE_BYTES), stopping at the first empty read.  read(c)
returns the next min(c, remaining) bytes; read(0) returns the empty bytes
object immediately. -/
def senderChunks (c : Nat) (B : List Nat) : List (List Nat) :=
  if h : c = 0 ∨ B = [] then [] else B.take c :: senderChunks c (B.drop c)
termination_by B.length
decreasing_by
  push_neg at h
  have hB : 0 < B.length := List.length_pos.mpr h.2
  simp only [List.length_drop]
  omega

/-- Outcome of the sender send loop: the binary frames emitted, and whether
the loop raised (ZeroDivisionError) instead of terminating normally. -/
structure SendResult where
  frames : List (List Nat)
  crashed : Bool

/-- Model of Sender.__send_file (src/client/sender.py lines 172-188).
Each loop iteration computes progress = (count * 100) / chunks_in_file
before the EOF break, so chunks_in_file = 0 (an empty payload) raises
ZeroDivisionError on the first iteration, before any frame is sent; a chunk
size of 0 already raises at the ceil(filesize / CHUNK_SIZE_BYTES) division.
Otherwise the loop emits every chunk of the file in order and terminates at
EOF.  Ack-gating only schedules the sends and is elided. -/
def sendFile (c : Nat) (B : List Nat) : SendResult :=
  if c = 0 then { frames := [], crashed := true }
  else if B = [] then { frames := [], crashed := true }
  else { frames := senderChunks c B, crashed := false }

/-- Model of the Receiver.__init__ computation (src/client/receiver.py line
44) chunks_per_part = floor(max_ram_mb / session_config.chunk_size_megabytes())
with chunk_size_megabytes() = CHUNK_SIZE_BYTES / 1024.0 / 1024.0
(src/client/utils/communication.py lines 43-44), carried out in exact
arithmetic: floor(max_ram_mb * 2^20 / CHUNK_SIZE_BYTES). -/
def chunksPerPart (maxRamMb chunkSizeBytes : Nat) : Nat :=
  maxRamMb * 1048576 / chunkSizeBytes

theorem senderChunks_flatten (c : Nat) (hc : 0 < c) (B : List Nat) :
    (senderChunks c B).flatten = B := by
  generalize hn : B.length = n
  induction n using Nat.strong_induction_on generalizing B with
  | _ n ih =>
    rw [senderChunks]
    split
    · rename_i h
      rcases h with h | h
      · omega
      · subst h; simp
    · rename_i h
      push_neg at h
      have hB : 0 < B.length := List.length_pos.mpr h.2
      have hlt : (B.drop c).length < n := by
        simp only [List.length_drop]; omega
      simp only [List.flatten_cons]
      rw [ih _ hlt _ rfl]
      exact List.take_append_drop c B

theorem ceilDiv_sub_add_one (c n : Nat) (hc : 0 < c) (hn : 0 < n) :
    ceilDiv (n - c) c + 1 = ceilDiv n c := by
  unfold ceilDiv
  rcases le_or_lt n c with hle | hgt
  · have h1 : n - c = 0 := by omega
    rw [h1]
    have h2 : (0 + c - 1) / c = 0 := Nat.div_eq_of_lt (by omega)
    have h3 : n + c - 1 = (n - 1) + c := by omega
    rw [h2, h3, Nat.add_div_right _ hc]
    have h4 : (n - 1) / c = 0 := Nat.div_eq_of_lt (by omega)
    omega
  · have h1 : n - c + c - 1 = (n - c - 1) + c := by omega
    have h3 : n + c - 1 = (n - 1) + c := by omega
    rw [h1, h3, Nat.add_div_right _ hc, Nat.add_div_right _ hc]
    have h5 : n - c - 1 + c = n - 1 := by omega
    have h6 : (n - 1) / c = (n - c - 1) / c + 1 := by
      rw [← h5, Nat.add_div_right _ hc]
    omega

theorem senderChunks_length (c : Nat) (hc : 0 < c) (B : List Nat) :
    (senderChunks c B).length = ceilDiv B.length c := by
  generalize hn : B.length = n
  induction n using Nat.strong_induction_on generalizing B with
  | _ n ih =>
    rw [senderChunks]
    split
    · rename_i h
      rcases h with h | h
      · omega
      · subst h
        simp only [List.length_nil] at hn
        subst hn
        simp only [List.length_nil, ceilDiv]
        exact (Nat.div_eq_of_lt (by omega)).symm
    · rename_i h
      push_neg at h
      have hB : 0 < B.length := List.length_pos.mpr h.2
      have hlt : (B.drop c).length < n := by
        simp only [List.length_drop]; omega
      simp only [List.length_cons]
      rw [ih _ hlt _ rfl]
      simp only [List.length_drop]
      subst hn
      exact ceilDiv_sub_add_one c B.length hc hB

theorem senderChunks_ne_nil (c : Nat) (hc : 0 < c) (B : List Nat)
    (hB : B ≠ []) : senderChunks c B ≠ [] := by
  rw [senderChunks]
  split
  · rename_i h
    rcases h with h | h
    · omega
    · exact absurd h hB
  · simp

/-- A message the receiver sends on the data channel or an effect event it
performs, in emission order. -/
inductive ROut
  | ack
  | finished
  | errMsg (s : String)
  | wsClose
  | unzipped (dir : String)
deriving DecidableEq

/-- The receiver-side configuration fixed by on_datachannel
(src/client/receiver.py lines 104-110): the locally derived total chunk
count, the CHUNKS_PER_PART bound, the metadata fields the handler consults,
and the black-box streaming digest of the external checksum contract. -/
structure RcvCfg where
  chunksCount : Nat
  cpp : Nat
  shouldUnzip : Bool
  checksum : Nat
  hash : List Nat → Nat
  sessionName : String

/-- The receiver-side mutable state captured by the on_datachannel closure:
the chunk buffer, the part-filename list, the received counter, plus the
file system it writes to and the trace of messages and effects it emits. -/
structure RState where
  fs : FS
  buffer : List (List Nat)
  parts : List FileId
  received : Nat
  outs : List ROut

/-- Receiver state before the first chunk arrives, in an empty working
directory. -/
def initState : RState :=
  { fs := FS.empty, buffer := [], parts := [], received := 0, outs := [] }

/-- The buffer-append and part-flush prefix of on_message
(src/client/receiver.py lines 111-124): increment the counter, append the
chunk, and if the buffer length equals chunks_per_part or the counter equals
the chunk count, write the buffer to filename + ".part" + len(parts) via
save_file, record the part name, and clear the buffer; then send "ack". -/
def flushState (cfg : RcvCfg) (st : RState) (msg : List Nat) : RState :=
  if (st.buffer ++ [msg]).length = cfg.cpp ∨ st.received + 1 = cfg.chunksCount then
    { fs := st.fs.write (FileId.part st.parts.length) (st.buffer ++ [msg]).flatten,
      buffer := [],
      parts := st.parts ++ [FileId.part st.parts.length],
      received := st.received + 1,
      outs := st.outs ++ [ROut.ack] }
  else
    { fs := st.fs,
      buffer := st.buffer ++ [msg],
      parts := st.parts,
      received := st.received + 1,
      outs := st.outs ++ [ROut.ack] }

/-- Reading the listed part files back from disk, in order; fails (IOError)
if one is missing.  Models the reads of Receiver.__merge_file_parts. -/
def readParts (fs : FS) : List FileId → Option (List (List Nat))
  | [] => some []
  | p :: ps =>
    match fs p with
    | none => none
    | some cont =>
      match readParts fs ps with
      | none => none
      | some rest => some (cont :: rest)

/-- Model of Receiver.__merge_file_parts (src/client/receiver.py lines
164-178).  A single part is renamed onto the destination after removing a
pre-existing destination file; otherwise the destination is opened for
writing and each part is appended in order and removed after copying. -/
def mergeParts (fs : FS) (parts : List FileId) : Option FS :=
  if parts.length = 1 then
    match parts with
    | [] => none
    | p :: _ =>
      match (fs.remove FileId.dest) p with
      | none => none
      | some cont => some (((fs.remove FileId.dest).remove p).write FileId.dest cont)
  else
    match readParts fs parts with
    | none => none
    | some contents =>
      some ((parts.foldl FS.remove fs).write FileId.dest contents.flatten)

/-- The text frame Receiver.__finalize_transfer sends (src/client/receiver.py
lines 132-139): "Finished" when the streamed digest of the destination file
equals the metadata checksum, "Error: checksum mismatch" otherwise. -/
def verdictOut (cfg : RcvCfg) (destContent : List Nat) : ROut :=
  if cfg.hash destContent = cfg.checksum then ROut.finished
  else ROut.errMsg "Error: checksum mismatch"

/-- The tail of on_message once the counter reaches the chunk count
(src/client/receiver.py lines 125-130): merge the parts, verify the checksum
and send the verdict, schedule the websocket close, and when should_unzip is
set, extract the archive into the session-named directory and delete it
(decompress_files with delete_input=True, src/client/utils/file.py lines
32-37). -/
def finalizeStep (cfg : RcvCfg) (st1 : RState) : Option RState :=
  match mergeParts st1.fs st1.parts with
  | none => none
  | some fs1 =>
    match fs1 FileId.dest with
    | none => none
    | some destContent =>
      let outs2 := st1.outs ++ [verdictOut cfg destContent, ROut.wsClose]
      if cfg.shouldUnzip then
        some { st1 with fs := fs1.remove FileId.dest,
                        outs := outs2 ++ [ROut.unzipped cfg.sessionName] }
      else
        some { st1 with fs := fs1, outs := outs2 }

/-- One execution of the on_message handler (src/client/receiver.py lines
111-130).  The progress print divides by the chunk count, so a handler run
with a zero chunk count raises ZeroDivisionError, modelled as none. -/
def recvStep (cfg : RcvCfg) (st : RState) (msg : List Nat) : Option RState :=
  if cfg.chunksCount = 0 then none
  else
    let st1 := flushState cfg st msg
    if st1.received = cfg.chunksCount then finalizeStep cfg st1
    else some st1

/-- The receiver consuming a sequence of data-channel binary frames, one
on_message execution per frame. -/
def recvRun (cfg : RcvCfg) (st : RState) : List (List Nat) → Option RState
  | [] => some st
  | m :: ms =>
    match recvStep cfg st m with
    | none => none
    | some st1 => recvRun cfg st1 ms

/-- Receiver run from the initial state, as Option. -/
def runTransfer (cfg : RcvCfg) (ms : List (List Nat)) : Option RState :=
  recvRun cfg initState ms

/-- Final state of a receiver run from the initial state (meaningful when the
run succeeds, which the theorems establish separately). -/
def finalState (cfg : RcvCfg) (ms : List (List Nat)) : RState :=
  (recvRun cfg initState ms).getD initState

/-- Number of "ack" text frames in an emission trace. -/
def countAcks : List ROut → Nat
  | [] => 0
  | ROut.ack :: rest => countAcks rest + 1
  | _ :: rest => countAcks rest

theorem flushState_received (cfg : RcvCfg) (st : RState) (msg : List Nat) :
    (flushState cfg st msg).received = st.received + 1 := by
  unfold flushState; split <;> rfl

theorem flushState_outs (cfg : RcvCfg) (st : RState) (msg : List Nat) :
    (flushState cfg st msg).outs = st.outs ++ [ROut.ack] := by
  unfold flushState; split <;> rfl

theorem flushState_flush (cfg : RcvCfg) (st : RState) (msg : List Nat)
    (h : (st.buffer ++ [msg]).length = cfg.cpp ∨ st.received + 1 = cfg.chunksCount) :
    flushState cfg st msg =
      { fs := st.fs.write (FileId.part st.parts.length) (st.buffer ++ [msg]).flatten,
        buffer := [],
        parts := st.parts ++ [FileId.part st.parts.length],
        received := st.received + 1,
        outs := st.outs ++ [ROut.ack] } := by
  unfold flushState; rw [if_pos h]

theorem flushState_noflush (cfg : RcvCfg) (st : RState) (msg : List Nat)
    (h : ¬((st.buffer ++ [msg]).length = cfg.cpp ∨ st.received + 1 = cfg.chunksCount)) :
    flushState cfg st msg =
      { fs := st.fs, buffer := st.buffer ++ [msg], parts := st.parts,
        received := st.received + 1, outs := st.outs ++ [ROut.ack] } := by
  unfold flushState; rw [if_neg h]

/-- Invariant tying the receiver state to the abstract list of part contents:
the parts list holds exactly the names filename + ".part" + 0 .. and each
part file on disk holds its recorded contents. -/
structure Good (st : RState) (pcs : List (List Nat)) : Prop where
  parts_eq : st.parts = (List.range pcs.length).map FileId.part
  fs_parts : ∀ i (hi : i < pcs.length), st.fs (FileId.part i) = some pcs[i]

theorem Good.parts_length {st : RState} {pcs : List (List Nat)}
    (hg : Good st pcs) : st.parts.length = pcs.length := by
  rw [hg.parts_eq]; simp

theorem good_init : Good initState [] := by
  constructor
  · rfl
  · intro i hi; simp at hi

theorem readParts_range (fs : FS) :
    ∀ (pcs : List (List Nat)) (s : Nat),
      (∀ i (hi : i < pcs.length), fs (FileId.part (s + i)) = some pcs[i]) →
      readParts fs ((List.range' s pcs.length).map FileId.part) = some pcs := by
  intro pcs
  induction pcs with
  | nil => intro s _; rfl
  | cons cont rest ih =>
    intro s h
    have h0 : fs (FileId.part s) = some cont := by
      have := h 0 (by simp)
      simpa using this
    simp only [List.length_cons]
    rw [List.range'_succ, List.map_cons]
    unfold readParts
    rw [h0]
    have hrec : readParts fs ((List.range' (s + 1) rest.length).map FileId.part)
        = some rest := by
      apply ih
      intro i hi
      have heq : s + 1 + i = s + (i + 1) := by omega
      rw [heq]
      have := h (i + 1) (by simp; omega)
      simpa using this
    rw [hrec]

theorem mergeParts_eq (fs : FS) (pcs : List (List Nat)) (hp : pcs ≠ [])
    (hfs : ∀ i (hi : i < pcs.length), fs (FileId.part i) = some pcs[i]) :
    ∃ fs1, mergeParts fs ((List.range pcs.length).map FileId.part) = some fs1 ∧
      fs1 FileId.dest = some pcs.flatten := by
  rcases pcs with _ | ⟨c0, rest⟩
  · exact absurd rfl hp
  rcases rest with _ | ⟨c1, rest2⟩
  · -- single part: rename path
    refine ⟨((fs.remove FileId.dest).remove (FileId.part 0)).write FileId.dest c0, ?_, ?_⟩
    · have h1 : (c0 :: ([] : List (List Nat))).length = 1 := rfl
      have h2 : (List.range 1).map FileId.part = [FileId.part 0] := rfl
      rw [h1, h2]
      unfold mergeParts
      rw [if_pos (by simp)]
      have h0 : (fs.remove FileId.dest) (FileId.part 0) = some c0 := by
        rw [FS.remove_ne _ _ _ (by simp)]
        simpa using hfs 0 (by simp)
      simp [h0]
    · rw [FS.write_self]
      simp
  · -- at least two parts: copy-and-append path
    have hlen : ((List.range (c0 :: c1 :: rest2).length).map FileId.part).length ≠ 1 := by
      simp
    have hread : readParts fs ((List.range (c0 :: c1 :: rest2).length).map FileId.part)
        = some (c0 :: c1 :: rest2) := by
      rw [List.range_eq_range']
      apply readParts_range
      intro i hi
      simpa using hfs i hi
    refine ⟨((((List.range (c0 :: c1 :: rest2).length).map FileId.part).foldl FS.remove
      fs).write FileId.dest (c0 :: c1 :: rest2).flatten), ?_, ?_⟩
    · unfold mergeParts
      rw [if_neg hlen, hread]
    · rw [FS.write_self]

/-- Shape of the receiver emission trace over a complete transfer: one ack
per chunk, then the verdict text and websocket close, and, for archive
transfers, the unzip effect. -/
def transferOuts (cfg : RcvCfg) (base : List ROut) (k : Nat) (D : List Nat) : List ROut :=
  base ++ List.replicate k ROut.ack ++ [verdictOut cfg D, ROut.wsClose] ++
    (if cfg.shouldUnzip then [ROut.unzipped cfg.sessionName] else [])

theorem transferOuts_ack (cfg : RcvCfg) (base : List ROut) (k : Nat) (D : List Nat) :
    transferOuts cfg (base ++ [ROut.ack]) k D = transferOuts cfg base (k + 1) D := by
  unfold transferOuts
  simp [List.replicate_succ, List.append_assoc]

theorem good_flush_fs (st : RState) (pcs : List (List Nat)) (hg : Good st pcs)
    (v : List Nat) :
    ∀ i (hi : i < (pcs ++ [v]).length),
      (st.fs.write (FileId.part st.parts.length) v) (FileId.part i)
        = some (pcs ++ [v])[i] := by
  intro i hi
  rw [hg.parts_length]
  simp only [List.length_append, List.length_cons, List.length_nil] at hi
  rcases Nat.lt_or_ge i pcs.length with hlt | hge
  · rw [FS.write_ne _ _ _ _ (by simp; omega)]
    rw [hg.fs_parts i hlt]
    rw [List.getElem_append_left hlt]
  · have hieq : i = pcs.length := by omega
    subst hieq
    rw [FS.write_self]
    rw [List.getElem_concat_length]
    rfl

theorem good_flush_parts (st : RState) (pcs : List (List Nat)) (hg : Good st pcs)
    (v : List Nat) :
    st.parts ++ [FileId.part st.parts.length]
      = (List.range (pcs ++ [v]).length).map FileId.part := by
  simp [hg.parts_eq, List.range_succ]

theorem finalizeStep_eq (cfg : RcvCfg) (st1 : RState) (fs1 : FS) (d : List Nat)
    (hm : mergeParts st1.fs st1.parts = some fs1) (hd : fs1 FileId.dest = some d) :
    finalizeStep cfg st1 =
      if cfg.shouldUnzip then
        some { fs := fs1.remove FileId.dest, buffer := st1.buffer, parts := st1.parts,
               received := st1.received,
               outs := st1.outs ++ [verdictOut cfg d, ROut.wsClose] ++
                 [ROut.unzipped cfg.sessionName] }
      else
        some { fs := fs1, buffer := st1.buffer, parts := st1.parts,
               received := st1.received,
               outs := st1.outs ++ [verdictOut cfg d, ROut.wsClose] } := by
  unfold finalizeStep
  rw [hm]
  dsimp only
  rw [hd]

/-- Complete-run lemma: from a state satisfying the part invariant, feeding
exactly the remaining chunks drives the handler through the final flush,
merge, verification and optional unzip, and characterizes the final
destination file and the full emission trace. -/
theorem recvRun_main (cfg : RcvCfg) :
    ∀ (ms : List (List Nat)) (st : RState) (pcs : List (List Nat)),
      Good st pcs →
      st.received + ms.length = cfg.chunksCount →
      ms ≠ [] →
      ∃ st2,
        recvRun cfg st ms = some st2 ∧
        st2.outs = transferOuts cfg st.outs ms.length
          (pcs.flatten ++ st.buffer.flatten ++ ms.flatten) ∧
        st2.fs FileId.dest =
          (if cfg.shouldUnzip then none
           else some (pcs.flatten ++ st.buffer.flatten ++ ms.flatten)) ∧
        st2.received = cfg.chunksCount := by
  intro ms
  induction ms with
  | nil => intro st pcs _ _ hne; exact absurd rfl hne
  | cons m ms ih =>
    intro st pcs hg hcount _
    have hc0 : cfg.chunksCount ≠ 0 := by
      simp only [List.length_cons] at hcount; omega
    by_cases hfin : ms = []
    · -- this is the final chunk
      subst hfin
      have hrec : st.received + 1 = cfg.chunksCount := by
        simpa using hcount
      have hflush := flushState_flush cfg st m (Or.inr hrec)
      have hgf := good_flush_fs st pcs hg (st.buffer ++ [m]).flatten
      have hgp := good_flush_parts st pcs hg (st.buffer ++ [m]).flatten
      obtain ⟨fs1, hmerge, hdest⟩ :=
        mergeParts_eq (st.fs.write (FileId.part st.parts.length) (st.buffer ++ [m]).flatten)
          (pcs ++ [(st.buffer ++ [m]).flatten]) (by simp) hgf
      have hD : (pcs ++ [(st.buffer ++ [m]).flatten]).flatten
          = pcs.flatten ++ st.buffer.flatten ++ [m].flatten := by
        simp [List.append_assoc]
      have hstep : recvStep cfg st m = finalizeStep cfg (flushState cfg st m) := by
        unfold recvStep
        rw [if_neg hc0, if_pos (by rw [flushState_received]; exact hrec)]
      have hmerge2 : mergeParts (flushState cfg st m).fs (flushState cfg st m).parts
          = some fs1 := by
        rw [hflush]
        show mergeParts (st.fs.write (FileId.part st.parts.length)
          (st.buffer ++ [m]).flatten) (st.parts ++ [FileId.part st.parts.length]) = some fs1
        rw [hgp]
        exact hmerge
      have hrun : recvRun cfg st [m] = finalizeStep cfg (flushState cfg st m) := by
        show (match recvStep cfg st m with
              | none => none
              | some st1 => recvRun cfg st1 []) = finalizeStep cfg (flushState cfg st m)
        rw [hstep]
        cases finalizeStep cfg (flushState cfg st m) with
        | none => rfl
        | some s => rfl
      rw [hrun, finalizeStep_eq cfg (flushState cfg st m) fs1
        (pcs ++ [(st.buffer ++ [m]).flatten]).flatten hmerge2 hdest]
      by_cases hsu : cfg.shouldUnzip = true
      · rw [if_pos hsu]
        refine ⟨_, rfl, ?_, ?_, ?_⟩
        · dsimp only
          rw [flushState_outs, hD]
          unfold transferOuts
          rw [if_pos hsu]
          simp [List.append_assoc, List.replicate_succ]
        · dsimp only
          rw [if_pos hsu, FS.remove_self]
        · dsimp only
          rw [flushState_received]; exact hrec
      · rw [if_neg hsu]
        refine ⟨_, rfl, ?_, ?_, ?_⟩
        · dsimp only
          rw [flushState_outs, hD]
          unfold transferOuts
          rw [if_neg hsu]
          simp [List.append_assoc, List.replicate_succ]
        · dsimp only
          rw [if_neg hsu, hdest, hD]
        · dsimp only
          rw [flushState_received]; exact hrec
    · -- a non-final chunk
      have hmslen : 0 < ms.length := List.length_pos.mpr hfin
      have hmid : st.received + 1 ≠ cfg.chunksCount := by
        simp only [List.length_cons] at hcount; omega
      have hstep : recvStep cfg st m = some (flushState cfg st m) := by
        unfold recvStep
        rw [if_neg hc0, if_neg (by rw [flushState_received]; exact hmid)]
      have hrun : recvRun cfg st (m :: ms) = recvRun cfg (flushState cfg st m) ms := by
        show (match recvStep cfg st m with
              | none => none
              | some st1 => recvRun cfg st1 ms) = _
        rw [hstep]
      by_cases hbl : (st.buffer ++ [m]).length = cfg.cpp
      · -- mid-transfer part flush
        have hflush := flushState_flush cfg st m (Or.inl hbl)
        have hgood2 : Good (flushState cfg st m) (pcs ++ [(st.buffer ++ [m]).flatten]) := by
          rw [hflush]
          exact ⟨good_flush_parts st pcs hg _, good_flush_fs st pcs hg _⟩
        have hcount2 : (flushState cfg st m).received + ms.length = cfg.chunksCount := by
          rw [flushState_received]
          simp only [List.length_cons] at hcount; omega
        obtain ⟨st2, hrun2, houts2, hdest2, hrecv2⟩ :=
          ih (flushState cfg st m) (pcs ++ [(st.buffer ++ [m]).flatten]) hgood2 hcount2 hfin
        refine ⟨st2, by rw [hrun]; exact hrun2, ?_, ?_, hrecv2⟩
        · rw [houts2, flushState_outs, transferOuts_ack]
          have hbuf : (flushState cfg st m).buffer = [] := by rw [hflush]
          rw [hbuf]
          simp [List.append_assoc]
        · rw [hdest2]
          have hbuf : (flushState cfg st m).buffer = [] := by rw [hflush]
          rw [hbuf]
          simp [List.append_assoc]
      · -- plain buffered chunk
        have hnf : ¬((st.buffer ++ [m]).length = cfg.cpp ∨
            st.received + 1 = cfg.chunksCount) := by
          intro hor; rcases hor with hor | hor
          · exact hbl hor
          · exact hmid hor
        have hflush := flushState_noflush cfg st m hnf
        have hgood2 : Good (flushState cfg st m) pcs := by
          rw [hflush]
          exact ⟨hg.parts_eq, hg.fs_parts⟩
        have hcount2 : (flushState cfg st m).received + ms.length = cfg.chunksCount := by
          rw [flushState_received]
          simp only [List.length_cons] at hcount; omega
        obtain ⟨st2, hrun2, houts2, hdest2, hrecv2⟩ :=
          ih (flushState cfg st m) pcs hgood2 hcount2 hfin
        refine ⟨st2, by rw [hrun]; exact hrun2, ?_, ?_, hrecv2⟩
        · rw [houts2, flushState_outs, transferOuts_ack]
          have hbuf : (flushState cfg st m).buffer = st.buffer ++ [m] := by rw [hflush]
          rw [hbuf]
          simp [List.append_assoc]
        · rw [hdest2]
          have hbuf : (flushState cfg st m).buffer = st.buffer ++ [m] := by rw [hflush]
          rw [hbuf]
          simp [List.append_assoc]

theorem finalizeStep_buffer (cfg : RcvCfg) (st1 st2 : RState)
    (h : finalizeStep cfg st1 = some st2) : st2.buffer = st1.buffer := by
  unfold finalizeStep at h
  cases hm : mergeParts st1.fs st1.parts with
  | none => rw [hm] at h; exact absurd h (by simp)
  | some fs1 =>
    rw [hm] at h
    dsimp only at h
    cases hd : fs1 FileId.dest with
    | none => rw [hd] at h; exact absurd h (by simp)
    | some d =>
      rw [hd] at h
      dsimp only at h
      split at h
      · cases h; rfl
      · cases h; rfl

theorem flushState_buffer_lt (cfg : RcvCfg) (st : RState) (m : List Nat)
    (hcpp : 0 < cfg.cpp) (hb : st.buffer.length < cfg.cpp) :
    (flushState cfg st m).buffer.length < cfg.cpp := by
  unfold flushState
  split
  · simpa using hcpp
  · rename_i hcond
    push_neg at hcond
    have h1 := hcond.1
    dsimp only
    simp only [List.length_append, List.length_cons, List.length_nil] at h1 ⊢
    omega

theorem recvStep_buffer (cfg : RcvCfg) (st : RState) (m : List Nat) (st2 : RState)
    (hcpp : 0 < cfg.cpp) (hb : st.buffer.length < cfg.cpp)
    (h : recvStep cfg st m = some st2) : st2.buffer.length < cfg.cpp := by
  unfold recvStep at h
  split at h
  · exact absurd h (by simp)
  · dsimp only at h
    split at h
    · rw [finalizeStep_buffer cfg _ _ h]
      exact flushState_buffer_lt cfg st m hcpp hb
    · cases h
      exact flushState_buffer_lt cfg st m hcpp hb

/-- The chunk buffer never reaches CHUNKS_PER_PART between handler runs, as
long as CHUNKS_PER_PART is positive: the handler flushes exactly when the
appended buffer attains the bound. -/
theorem recvRun_buffer (cfg : RcvCfg) (hcpp : 0 < cfg.cpp) :
    ∀ (ms : List (List Nat)) (st st2 : RState),
      st.buffer.length < cfg.cpp →
      recvRun cfg st ms = some st2 →
      st2.buffer.length < cfg.cpp := by
  intro ms
  induction ms with
  | nil =>
    intro st st2 hb h
    cases h
    exact hb
  | cons m ms ih =>
    intro st st2 hb h
    unfold recvRun at h
    cases hs : recvStep cfg st m with
    | none => rw [hs] at h; exact absurd h (by simp)
    | some st1 =>
      rw [hs] at h
      exact ih st1 st2 (recvStep_buffer cfg st m st1 hcpp hb hs) h

theorem countAcks_append (l1 l2 : List ROut) :
    countAcks (l1 ++ l2) = countAcks l1 + countAcks l2 := by
  induction l1 with
  | nil => simp [countAcks]
  | cons a l ih =>
    cases a <;> simp [countAcks, ih] <;> omega

theorem countAcks_verdict (cfg : RcvCfg) (d : List Nat) :
    countAcks [verdictOut cfg d, ROut.wsClose] = 0 := by
  unfold verdictOut
  split <;> rfl

theorem finalizeStep_acks (cfg : RcvCfg) (st1 st2 : RState)
    (h : finalizeStep cfg st1 = some st2) :
    countAcks st2.outs = countAcks st1.outs := by
  unfold finalizeStep at h
  cases hm : mergeParts st1.fs st1.parts with
  | none => rw [hm] at h; exact absurd h (by simp)
  | some fs1 =>
    rw [hm] at h
    dsimp only at h
    cases hd : fs1 FileId.dest with
    | none => rw [hd] at h; exact absurd h (by simp)
    | some d =>
      rw [hd] at h
      dsimp only at h
      split at h
      · cases h
        dsimp only
        rw [countAcks_append, countAcks_append, countAcks_verdict]
        simp [countAcks]
      · cases h
        dsimp only
        rw [countAcks_append, countAcks_verdict]
        omega

theorem recvStep_acks (cfg : RcvCfg) (st : RState) (m : List Nat) (st2 : RState)
    (h : recvStep cfg st m = some st2) :
    countAcks st2.outs = countAcks st.outs + 1 := by
  unfold recvStep at h
  split at h
  · exact absurd h (by simp)
  · dsimp only at h
    split at h
    · rw [finalizeStep_acks cfg _ _ h, flushState_outs, countAcks_append]
      rfl
    · cases h
      rw [flushState_outs, countAcks_append]
      rfl

/-- One "ack" text frame is sent per on_message execution: channel.send("ack")
runs unconditionally, after the flush check and before finalization. -/
theorem recvRun_acks (cfg : RcvCfg) :
    ∀ (ms : List (List Nat)) (st st2 : RState),
      recvRun cfg st ms = some st2 →
      countAcks st2.outs = countAcks st.outs + ms.length := by
  intro ms
  induction ms with
  | nil =>
    intro st st2 h
    cases h
    simp
  | cons m ms ih =>
    intro st st2 h
    unfold recvRun at h
    cases hs : recvStep cfg st m with
    | none => rw [hs] at h; exact absurd h (by simp)
    | some st1 =>
      rw [hs] at h
      rw [ih st1 st2 h, recvStep_acks cfg st m st1 hs]
      simp only [List.length_cons]
      omega

/-- A JSON frame the server sends, tagged with the connection it goes to. -/
inductive ServerMsg
  | statusRegistered
  | statusError (message : String)
  | metadataMsg (metadata : Option String)
  | offerMsg (sdp : Option String)
  | answerMsg (sdp : Option String)
  | candidateMsg (candidate : Option String)
  | cancelMsg
  | invalidMessage
deriving DecidableEq

/-- The stored negotiation messages of a session record
(src/server/handlers/register_handler.py line 48): last offer, last answer,
and the ordered candidate list of (target, candidate) pairs. -/
structure SMessages where
  offer : Option String
  answer : Option String
  candidates : List (Option String × Option String)
deriving DecidableEq

/-- A server-side session record: the sender and receiver connection slots
(connections are identified by Nat handles), the stored messages and the
stored metadata blob (an opaque JSON value, modelled as an optional
string). -/
structure Session where
  sender : Option Nat
  receiver : Option Nat
  messages : SMessages
  metadata : Option String
deriving DecidableEq

/-- The global session map (src/server/sessions.py): a python dict keyed by
session name, modelled as an association list in insertion order with unique
keys. -/
def Sessions : Type := List (String × Session)

/-- Parsed request fields, each data.get(...) of RequestData
(src/server/request_data.py): absent JSON fields are None. -/
structure Request where
  action : String
  sessionName : String
  role : Option String
  metadata : Option String
  target : Option String
  sdp : Option String
  candidate : Option String

/-- Result of running one handler: the updated session map, the frames sent
(tagged with destination connection), whether the handler closed the
registering websocket, and whether it raised an uncaught exception
(KeyError from unguarded dict indexing). -/
structure HResult where
  ss : Sessions
  outs : List (Nat × ServerMsg)
  closeWs : Bool
  errored : Bool

/-- Dict lookup sessions.get / sessions[name] membership test. -/
def lookupS : Sessions → String → Option Session
  | [], _ => none
  | (k, v) :: rest, n => if k = n then some v else lookupS rest n

/-- Dict assignment sessions[name] = v: replaces the value in place if the
key exists, appends the key otherwise. -/
def setSession : Sessions → String → Session → Sessions
  | [], n, v => [(n, v)]
  | (k, w) :: rest, n, v =>
    if k = n then (n, v) :: rest else (k, w) :: setSession rest n v

/-- Dict deletion del sessions[name]. -/
def removeSession (ss : Sessions) (n : String) : Sessions :=
  ss.filter (fun p => p.1 != n)

theorem lookupS_setSession (ss : Sessions) (n : String) (v : Session) :
    lookupS (setSession ss n v) n = some v := by
  induction ss with
  | nil => simp [setSession, lookupS]
  | cons p rest ih =>
    obtain ⟨k, w⟩ := p
    by_cases hk : k = n
    · simp [setSession, lookupS, hk]
    · simp [setSession, lookupS, hk, ih]

/-- Reading sessions[name][role]: the python dict lookup raises KeyError for
a key other than the record keys.  Only the two role slots are modelled; the
claims below use the handler exclusively with role "sender" or
"receiver". -/
def sessionSlot (s : Session) (role : Option String) : Except Unit (Option Nat) :=
  if role = some "sender" then Except.ok s.sender
  else if role = some "receiver" then Except.ok s.receiver
  else Except.error ()

/-- Python truthiness of a stored optional string: None and the empty string
are falsy.  Used by the stored-offer replay check
(src/server/handlers/register_handler.py line 39). -/
def truthyStr : Option String → Bool
  | none => false
  | some s => s != ""

/-- RegisterHandler.__register_sender (src/server/handlers/register_handler.py
lines 43-55): overwrite the session record with a fresh one (both slots
empty, empty stored messages, the metadata of this request), then bind this
connection into the sender slot, then reply registered. -/
def registerSender (ss : Sessions) (req : Request) (ws : Nat) : HResult :=
  let fresh : Session :=
    { sender := none, receiver := none,
      messages := { offer := none, answer := none, candidates := [] },
      metadata := req.metadata }
  let ss1 := setSession ss req.sessionName fresh
  let ss2 := setSession ss1 req.sessionName { fresh with sender := some ws }
  { ss := ss2, outs := [(ws, ServerMsg.statusRegistered)],
    closeWs := false, errored := false }

/-- RegisterHandler.__register_receiver
(src/server/handlers/register_handler.py lines 23-41): reject and close when
the session does not exist; otherwise bind the receiver slot, reply
registered, push the stored metadata, and push the stored offer when it is
truthy. -/
def registerReceiver (ss : Sessions) (req : Request) (ws : Nat) : HResult :=
  match lookupS ss req.sessionName with
  | none =>
    { ss := ss,
      outs := [(ws, ServerMsg.statusError
        ("Session " ++ req.sessionName ++ " does not exist"))],
      closeWs := true, errored := false }
  | some r =>
    let r1 := { r with receiver := some ws }
    let ss1 := setSession ss req.sessionName r1
    let offerOuts :=
      if truthyStr r1.messages.offer then [(ws, ServerMsg.offerMsg r1.messages.offer)]
      else []
    { ss := ss1,
      outs := [(ws, ServerMsg.statusRegistered),
               (ws, ServerMsg.metadataMsg r1.metadata)] ++ offerOuts,
      closeWs := false, errored := false }

/-- The dict-based dispatch of RegisterHandler.handle
(src/server/handlers/register_handler.py lines 18-21); a role other than
sender or receiver raises KeyError. -/
def registerDispatch (ss : Sessions) (req : Request) (ws : Nat) : HResult :=
  if req.role = some "sender" then registerSender ss req ws
  else if req.role = some "receiver" then registerReceiver ss req ws
  else { ss := ss, outs := [], closeWs := false, errored := true }

/-- RegisterHandler.handle (src/server/handlers/register_handler.py lines
12-21): if the session exists and the requested role slot is already bound,
reply with the already-registered error; otherwise dispatch by role. -/
def handleRegister (ss : Sessions) (req : Request) (ws : Nat) : HResult :=
  match lookupS ss req.sessionName with
  | some r =>
    match sessionSlot r req.role with
    | Except.error _ => { ss := ss, outs := [], closeWs := false, errored := true }
    | Except.ok (some _) =>
      { ss := ss,
        outs := [(ws, ServerMsg.statusError
          ((match req.role with | some s => s | none => "None") ++
            " already registered in session " ++ req.sessionName))],
        closeWs := false, errored := false }
    | Except.ok none => registerDispatch ss req ws
  | none => registerDispatch ss req ws

/-- OfferHandler.handle (src/server/handlers/offer_handler.py lines 12-16):
sessions[session]["messages"]["offer"] = sdp raises KeyError when the
session is absent; otherwise store the sdp and forward it when the receiver
slot is bound (truthy). -/
def handleOffer (ss : Sessions) (req : Request) (_ws : Nat) : HResult :=
  match lookupS ss req.sessionName with
  | none => { ss := ss, outs := [], closeWs := false, errored := true }
  | some r =>
    let r1 := { r with messages := { r.messages with offer := req.sdp } }
    let ss1 := setSession ss req.sessionName r1
    match r1.receiver with
    | some rc =>
      { ss := ss1, outs := [(rc, ServerMsg.offerMsg req.sdp)],
        closeWs := false, errored := false }
    | none => { ss := ss1, outs := [], closeWs := false, errored := false }

/-- AnswerHandler.handle (src/server/handlers/answer_handler.py lines 12-16):
same shape as the offer handler, storing the answer and forwarding to the
sender slot. -/
def handleAnswer (ss : Sessions) (req : Request) (_ws : Nat) : HResult :=
  match lookupS ss req.sessionName with
  | none => { ss := ss, outs := [], closeWs := false, errored := true }
  | some r =>
    let r1 := { r with messages := { r.messages with answer := req.sdp } }
    let ss1 := setSession ss req.sessionName r1
    match r1.sender with
    | some sc =>
      { ss := ss1, outs := [(sc, ServerMsg.answerMsg req.sdp)],
        closeWs := false, errored := false }
    | none => { ss := ss1, outs := [], closeWs := false, errored := false }

/-- CandidateHandler.handle (src/server/handlers/candidate_handler.py lines
12-16): append the candidate to the stored list (KeyError when the session
is absent), then index sessions[session][target]; a target other than
"sender" or "receiver" raises KeyError after the append; a bound target slot
gets the candidate forwarded. -/
def handleCandidate (ss : Sessions) (req : Request) (_ws : Nat) : HResult :=
  match lookupS ss req.sessionName with
  | none => { ss := ss, outs := [], closeWs := false, errored := true }
  | some r =>
    let r1 := { r with messages :=
      { r.messages with candidates := r.messages.candidates ++ [(req.target, req.candidate)] } }
    let ss1 := setSession ss req.sessionName r1
    match sessionSlot r1 req.target with
    | Except.error _ => { ss := ss1, outs := [], closeWs := false, errored := true }
    | Except.ok none => { ss := ss1, outs := [], closeWs := false, errored := false }
    | Except.ok (some tc) =>
      { ss := ss1, outs := [(tc, ServerMsg.candidateMsg req.candidate)],
        closeWs := false, errored := false }

/-- CancelHandler.handle (src/server/handlers/cancel_handler.py lines 12-15):
sessions[session] raises KeyError when the session is absent; otherwise the
cancel is forwarded to the sender slot when bound. -/
def handleCancel (ss : Sessions) (req : Request) (_ws : Nat) : HResult :=
  match lookupS ss req.sessionName with
  | none => { ss := ss, outs := [], closeWs := false, errored := true }
  | some r =>
    match r.sender with
    | some sc =>
      { ss := ss, outs := [(sc, ServerMsg.cancelMsg)],
        closeWs := false, errored := false }
    | none => { ss := ss, outs := [], closeWs := false, errored := false }

/-- The handler list dispatch of server_loop (src/server/__main__.py lines
17-23 and 53-62), in list order; an unmatched action gets the literal
"Invalid message" reply. -/
def dispatchReq (ss : Sessions) (req : Request) (ws : Nat) : HResult :=
  if req.action = "answer" then handleAnswer ss req ws
  else if req.action = "cancel" then handleCancel ss req ws
  else if req.action = "candidate" then handleCandidate ss req ws
  else if req.action = "offer" then handleOffer ss req ws
  else if req.action = "register" then handleRegister ss req ws
  else { ss := ss, outs := [(ws, ServerMsg.invalidMessage)],
         closeWs := false, errored := false }

/-- get_role_and_session_name (src/server/__main__.py lines 26-32): scan the
sessions in insertion order, and within each record check the sender slot
before the receiver slot, for the slot holding this connection. -/
def findSlot : Sessions → Nat → Option (String × String)
  | [], _ => none
  | (n, s) :: rest, ws =>
    if s.sender = some ws then some ("sender", n)
    else if s.receiver = some ws then some ("receiver", n)
    else findSlot rest ws

/-- cleanup (src/server/__main__.py lines 35-43): clear the slot held by the
terminating connection and delete the session once both slots are empty. -/
def cleanup (ss : Sessions) (ws : Nat) : Sessions :=
  match findSlot ss ws with
  | none => ss
  | some (role, n) =>
    match lookupS ss n with
    | none => ss
    | some r =>
      let r1 :=
        if role = "sender" then { r with sender := none }
        else { r with receiver := none }
      if r1.sender = none ∧ r1.receiver = none then removeSession ss n
      else setSession ss n r1

/-- server_loop (src/server/__main__.py lines 46-67) restricted to a single
connection ws: process the request stream in order; an uncaught handler
exception or a handler-initiated close ends the loop (remaining requests are
not consumed and no reply is sent for them); cleanup always runs when the
loop ends. -/
def serverRun (ss : Sessions) (ws : Nat) : List Request → Sessions × List (Nat × ServerMsg)
  | [] => (cleanup ss ws, [])
  | req :: rest =>
    let r := dispatchReq ss req ws
    if r.errored || r.closeWs then (cleanup r.ss ws, r.outs)
    else
      let next := serverRun r.ss ws rest
      (next.1, r.outs ++ next.2)

/-- Receiver configuration for a transfer of payload B at chunk size c: the
chunk count is derived locally from the metadata filesize as in
on_datachannel (src/client/receiver.py line 109). -/
def transferCfg (B : List Nat) (c cpp : Nat) (su : Bool) (chk : Nat)
    (hash : List Nat → Nat) (sn : String) : RcvCfg :=
  { chunksCount := ceilDiv B.length c, cpp := cpp, shouldUnzip := su,
    checksum := chk, hash := hash, sessionName := sn }

theorem finalState_eq (cfg : RcvCfg) (ms : List (List Nat)) (st2 : RState)
    (h : runTransfer cfg ms = some st2) : finalState cfg ms = st2 := by
  unfold finalState
  unfold runTransfer at h
  rw [h]
  rfl

theorem transfer_complete (B : List Nat) (c cpp : Nat) (su : Bool) (chk : Nat)
    (hash : List Nat → Nat) (sn : String) (hc : 0 < c) (hB : B ≠ []) :
    ∃ st2,
      runTransfer (transferCfg B c cpp su chk hash sn) (senderChunks c B) = some st2 ∧
      st2.outs = transferOuts (transferCfg B c cpp su chk hash sn) []
        (senderChunks c B).length B ∧
      st2.fs FileId.dest = (if su then none else some B) ∧
      st2.received = ceilDiv B.length c := by
  obtain ⟨st2, h1, h2, h3, h4⟩ :=
    recvRun_main (transferCfg B c cpp su chk hash sn) (senderChunks c B) initState []
      good_init
      (by simp [initState, transferCfg, senderChunks_length c hc])
      (senderChunks_ne_nil c hc B hB)
  refine ⟨st2, h1, ?_, ?_, by simpa [transferCfg] using h4⟩
  · rw [h2]
    simp [initState, senderChunks_flatten c hc]
  · rw [h3]
    simp [initState, transferCfg, senderChunks_flatten c hc]

theorem mem_transferOuts_finished (cfg : RcvCfg) (base : List ROut) (k : Nat)
    (D : List Nat) (h : cfg.hash D = cfg.checksum) :
    ROut.finished ∈ transferOuts cfg base k D := by
  unfold transferOuts verdictOut
  rw [if_pos h]
  simp

theorem mem_transferOuts_err (cfg : RcvCfg) (base : List ROut) (k : Nat)
    (D : List Nat) (h : cfg.hash D ≠ cfg.checksum) :
    ROut.errMsg "Error: checksum mismatch" ∈ transferOuts cfg base k D := by
  unfold transferOuts verdictOut
  rw [if_neg h]
  simp

theorem mem_transferOuts_cases (cfg : RcvCfg) (k : Nat) (D : List Nat) (x : ROut)
    (hmem : x ∈ transferOuts cfg [] k D) :
    x = ROut.ack ∨ x = verdictOut cfg D ∨ x = ROut.wsClose ∨
      x = ROut.unzipped cfg.sessionName := by
  unfold transferOuts at hmem
  simp only [List.nil_append, List.mem_append] at hmem
  rcases hmem with (hmem | hmem) | hmem
  · exact Or.inl (List.eq_of_mem_replicate hmem)
  · simp only [List.mem_cons, List.not_mem_nil, or_false] at hmem
    rcases hmem with hmem | hmem
    · exact Or.inr (Or.inl hmem)
    · exact Or.inr (Or.inr (Or.inl hmem))
  · split at hmem
    · simp only [List.mem_singleton] at hmem
      exact Or.inr (Or.inr (Or.inr hmem))
    · exact absurd hmem (List.not_mem_nil x)

theorem not_mem_transferOuts_finished (cfg : RcvCfg) (k : Nat) (D : List Nat)
    (h : cfg.hash D ≠ cfg.checksum) :
    ROut.finished ∉ transferOuts cfg [] k D := by
  intro hmem
  rcases mem_transferOuts_cases cfg k D ROut.finished hmem with h1 | h1 | h1 | h1
  · exact ROut.noConfusion h1
  · unfold verdictOut at h1
    rw [if_neg h] at h1
    exact ROut.noConfusion h1
  · exact ROut.noConfusion h1
  · exact ROut.noConfusion h1

theorem not_mem_transferOuts_err (cfg : RcvCfg) (k : Nat) (D : List Nat)
    (h : cfg.hash D = cfg.checksum) :
    ROut.errMsg "Error: checksum mismatch" ∉ transferOuts cfg [] k D := by
  intro hmem
  rcases mem_transferOuts_cases cfg k D (ROut.errMsg "Error: checksum mismatch") hmem
    with h1 | h1 | h1 | h1
  · exact ROut.noConfusion h1
  · unfold verdictOut at h1
    rw [if_pos h] at h1
    exact ROut.noConfusion h1
  · exact ROut.noConfusion h1
  · exact ROut.noConfusion h1

theorem mem_transferOuts_unzipped (cfg : RcvCfg) (base : List ROut) (k : Nat)
    (D : List Nat) (h : cfg.shouldUnzip = true) :
    ROut.unzipped cfg.sessionName ∈ transferOuts cfg base k D := by
  unfold transferOuts
  rw [h]
  simp

/-- C1 (amended to nonempty payloads): for every nonempty byte sequence B
with |B| ≤ 10^9 and every chunk size c with 1 ≤ c ≤ 2^20, sending B as the
sender's stream of ceil(|B|/c) chunks and running the receiver's per-message
handler (buffer append, part flush at CHUNKS_PER_PART or at the final
chunk, then merge of the parts in order) produces a destination file whose
bytes equal B, whose streamed digest therefore equals the sender's
precomputed checksum of B: the receiver sends "Finished".  The digest is the
external black-box hash, quantified over all digest functions. -/
theorem c1_transfer_roundtrip (B : List Nat) (c cpp : Nat) (hash : List Nat → Nat)
    (sn : String) (hc : 0 < c) (hcmax : c ≤ 1048576) (hB : B ≠ [])
    (hlen : B.length ≤ 1000000000) :
    (runTransfer (transferCfg B c cpp false (hash B) hash sn)
        (sendFile c B).frames).isSome = true ∧
    (finalState (transferCfg B c cpp false (hash B) hash sn)
        (sendFile c B).frames).fs FileId.dest = some B ∧
    ROut.finished ∈ (finalState (transferCfg B c cpp false (hash B) hash sn)
        (sendFile c B).frames).outs := by
  have hframes : (sendFile c B).frames = senderChunks c B := by
    unfold sendFile
    rw [if_neg (by omega), if_neg hB]
  obtain ⟨st2, h1, h2, h3, _⟩ :=
    transfer_complete B c cpp false (hash B) hash sn hc hB
  rw [hframes]
  have hfs := finalState_eq _ _ _ h1
  refine ⟨by rw [h1]; rfl, ?_, ?_⟩
  · rw [hfs, h3]
    simp
  · rw [hfs, h2]
    exact mem_transferOuts_finished _ _ _ _ rfl

theorem c1_transfer_roundtrip_witness :
    (runTransfer (transferCfg [1, 2, 3] 2 1 false (List.length [1, 2, 3]) List.length "s")
        (sendFile 2 [1, 2, 3]).frames).isSome = true ∧
    (finalState (transferCfg [1, 2, 3] 2 1 false (List.length [1, 2, 3]) List.length "s")
        (sendFile 2 [1, 2, 3]).frames).fs FileId.dest = some [1, 2, 3] ∧
    ROut.finished ∈ (finalState (transferCfg [1, 2, 3] 2 1 false
        (List.length [1, 2, 3]) List.length "s") (sendFile 2 [1, 2, 3]).frames).outs :=
  c1_transfer_roundtrip [1, 2, 3] 2 1 List.length "s" (by decide) (by decide)
    (by decide) (by decide)

/-- Receiver configuration for a zero-byte payload at chunk size 4096: the
locally derived chunk count is ceil(0/4096) = 0. -/
def cfgEmpty : RcvCfg :=
  { chunksCount := ceilDiv 0 4096, cpp := 1, shouldUnzip := false,
    checksum := 0, hash := List.length, sessionName := "s" }

/-- C1 counterexample at the empty payload: with B = [] the sender emits no
frame (its loop raises before the EOF break), the receiver handler never
runs, and no destination file is produced, contradicting the claim for
byte sequences of length 0. -/
theorem c1_empty_payload_cex :
    senderChunks 4096 [] = [] ∧
    runTransfer cfgEmpty (senderChunks 4096 []) = some initState ∧
    initState.fs FileId.dest = none ∧
    (sendFile 4096 []).crashed = true := by
  have h : senderChunks 4096 [] = [] := by
    rw [senderChunks]
    simp
  refine ⟨h, ?_, rfl, rfl⟩
  rw [h]
  rfl

/-- Receiver configuration reproducing max_ram_mb = 1 with CHUNK_SIZE_BYTES
= 2^21 (2 MB chunks) on a 3-chunk file: CHUNKS_PER_PART evaluates to 0. -/
def cfgNoClamp : RcvCfg :=
  { chunksCount := 3, cpp := chunksPerPart 1 2097152, shouldUnzip := false,
    checksum := 0, hash := List.length, sessionName := "s" }

/-- C2: the code does not clamp.  With max_ram_mb = 1 and CHUNK_SIZE_BYTES =
2^21, chunks_per_part is 0, not the claimed 1, and after two of three chunks
the receiver still holds both chunks in the buffer with no part flushed,
instead of the claimed one part per chunk. -/
theorem c2_chunks_per_part_unclamped :
    chunksPerPart 1 2097152 = 0 ∧
    runTransfer cfgNoClamp [[1], [2]] =
      some { fs := FS.empty, buffer := [[1], [2]], parts := [], received := 2,
             outs := [ROut.ack, ROut.ack] } :=
  ⟨rfl, rfl⟩

/-- C3: on a zero-byte payload the sender loop divides by chunks_in_file = 0
in its progress computation and raises ZeroDivisionError instead of
terminating normally, after emitting zero frames; since no frame arrives,
the receiver finalization never runs and no destination file is written. -/
theorem c3_empty_payload_bug :
    (sendFile 4096 []).crashed = true ∧
    (sendFile 4096 []).frames = [] ∧
    ceilDiv 0 4096 = 0 ∧
    runTransfer cfgEmpty [] = some initState ∧
    initState.fs FileId.dest = none ∧
    countAcks initState.outs = 0 :=
  ⟨rfl, rfl, rfl, rfl, rfl, rfl⟩

/-- C4: whenever max_ram_mb is at least CHUNK_SIZE_BYTES / 2^20 (so that
CHUNKS_PER_PART is at least 1), after every execution of the per-message
handler the resident chunk buffer holds at most CHUNKS_PER_PART chunks, for
every sequence of delivered chunks. -/
theorem c4_buffer_bounded (maxRam chunkBytes : Nat) (cfg : RcvCfg)
    (h1 : chunkBytes ≤ maxRam * 1048576) (h2 : 0 < chunkBytes)
    (hcfg : cfg.cpp = chunksPerPart maxRam chunkBytes)
    (ms : List (List Nat)) (st2 : RState)
    (h : recvRun cfg initState ms = some st2) :
    st2.buffer.length ≤ cfg.cpp := by
  have hcpp : 0 < cfg.cpp := by
    rw [hcfg]
    unfold chunksPerPart
    have := (Nat.one_le_div_iff h2).mpr h1
    omega
  exact le_of_lt (recvRun_buffer cfg hcpp ms initState st2
    (by simpa [initState] using hcpp) h)

/-- Receiver configuration with max_ram_mb = 1 and CHUNK_SIZE_BYTES = 2^20:
CHUNKS_PER_PART is exactly 1. -/
def cfgC4w : RcvCfg :=
  { chunksCount := 2, cpp := chunksPerPart 1 1048576, shouldUnzip := false,
    checksum := 2, hash := List.length, sessionName := "s" }

theorem c4_buffer_bounded_witness :
    (finalState cfgC4w [[5], [6]]).buffer.length ≤ cfgC4w.cpp :=
  c4_buffer_bounded 1 1048576 cfgC4w (by decide) (by decide) rfl [[5], [6]]
    (finalState cfgC4w [[5], [6]]) rfl

/-- C6: over a transfer the sender emits exactly ceil(filesize /
CHUNK_SIZE_BYTES) binary frames, and the receiver sends exactly one "ack"
text frame per received chunk, the final chunk included and independently of
part flushes (one ack per handler execution, unconditionally). -/
theorem c6_acks_and_frames (B : List Nat) (c cpp : Nat) (su : Bool) (chk : Nat)
    (hash : List Nat → Nat) (sn : String) (hc : 0 < c) :
    (sendFile c B).frames.length = ceilDiv B.length c ∧
    (runTransfer (transferCfg B c cpp su chk hash sn) (sendFile c B).frames).isSome = true ∧
    countAcks (finalState (transferCfg B c cpp su chk hash sn)
        (sendFile c B).frames).outs = (sendFile c B).frames.length := by
  by_cases hB : B = []
  · subst hB
    have hframes : (sendFile c []).frames = [] := by
      unfold sendFile
      rw [if_neg (by omega)]
      rfl
    rw [hframes]
    refine ⟨?_, rfl, rfl⟩
    have h0 : ceilDiv 0 c = 0 := by
      unfold ceilDiv
      exact Nat.div_eq_of_lt (by omega)
    simpa using h0.symm
  · have hframes : (sendFile c B).frames = senderChunks c B := by
      unfold sendFile
      rw [if_neg (by omega), if_neg hB]
    obtain ⟨st2, h1, h2, h3, h4⟩ := transfer_complete B c cpp su chk hash sn hc hB
    rw [hframes]
    have hfs := finalState_eq _ _ _ h1
    refine ⟨senderChunks_length c hc B, by rw [h1]; rfl, ?_⟩
    rw [hfs]
    have hacks := recvRun_acks (transferCfg B c cpp su chk hash sn) (senderChunks c B)
      initState st2 (by unfold runTransfer at h1; exact h1)
    rw [hacks]
    simp [initState, countAcks]

theorem c6_acks_and_frames_witness :
    (sendFile 2 [7, 8, 9]).frames.length = ceilDiv (List.length [7, 8, 9]) 2 ∧
    (runTransfer (transferCfg [7, 8, 9] 2 1 false 0 List.length "s")
        (sendFile 2 [7, 8, 9]).frames).isSome = true ∧
    countAcks (finalState (transferCfg [7, 8, 9] 2 1 false 0 List.length "s")
        (sendFile 2 [7, 8, 9]).frames).outs = (sendFile 2 [7, 8, 9]).frames.length :=
  c6_acks_and_frames [7, 8, 9] 2 1 false 0 List.length "s" (by decide)

/-- C7 (amended: the non-deletion guarantee holds for direct file transfers,
should_unzip = false): after full reassembly the receiver sends "Finished"
if and only if the streamed digest of the destination equals the metadata
checksum and sends exactly "Error: checksum mismatch" otherwise; when
should_unzip is false the destination file is kept in the mismatch case
(when should_unzip is true the archive is extracted and deleted regardless
of the verdict, see the C10 theorem). -/
theorem c7_verdict (B : List Nat) (c cpp : Nat) (su : Bool) (chk : Nat)
    (hash : List Nat → Nat) (sn : String) (hc : 0 < c) (hB : B ≠ []) :
    (runTransfer (transferCfg B c cpp su chk hash sn) (senderChunks c B)).isSome = true ∧
    (hash B = chk →
      ROut.finished ∈ (finalState (transferCfg B c cpp su chk hash sn)
          (senderChunks c B)).outs ∧
      ROut.errMsg "Error: checksum mismatch" ∉
        (finalState (transferCfg B c cpp su chk hash sn) (senderChunks c B)).outs) ∧
    (hash B ≠ chk →
      ROut.errMsg "Error: checksum mismatch" ∈
        (finalState (transferCfg B c cpp su chk hash sn) (senderChunks c B)).outs ∧
      ROut.finished ∉ (finalState (transferCfg B c cpp su chk hash sn)
          (senderChunks c B)).outs) ∧
    (su = false →
      (finalState (transferCfg B c cpp su chk hash sn)
          (senderChunks c B)).fs FileId.dest = some B) := by
  obtain ⟨st2, h1, h2, h3, _⟩ := transfer_complete B c cpp su chk hash sn hc hB
  have hfs := finalState_eq _ _ _ h1
  refine ⟨by rw [h1]; rfl, ?_, ?_, ?_⟩
  · intro heq
    rw [hfs, h2]
    exact ⟨mem_transferOuts_finished _ _ _ _ heq,
           not_mem_transferOuts_err _ _ _ heq⟩
  · intro hne
    rw [hfs, h2]
    exact ⟨mem_transferOuts_err _ _ _ _ hne,
           not_mem_transferOuts_finished _ _ _ hne⟩
  · intro hsu
    rw [hfs, h3, hsu]
    simp

theorem c7_verdict_witness :
    (runTransfer (transferCfg [4] 1 1 false 1 List.length "s")
        (senderChunks 1 [4])).isSome = true ∧
    (List.length [4] = 1 →
      ROut.finished ∈ (finalState (transferCfg [4] 1 1 false 1 List.length "s")
          (senderChunks 1 [4])).outs ∧
      ROut.errMsg "Error: checksum mismatch" ∉
        (finalState (transferCfg [4] 1 1 false 1 List.length "s")
          (senderChunks 1 [4])).outs) ∧
    (List.length [4] ≠ 1 →
      ROut.errMsg "Error: checksum mismatch" ∈
        (finalState (transferCfg [4] 1 1 false 1 List.length "s")
          (senderChunks 1 [4])).outs ∧
      ROut.finished ∉ (finalState (transferCfg [4] 1 1 false 1 List.length "s")
          (senderChunks 1 [4])).outs) ∧
    (false = false →
      (finalState (transferCfg [4] 1 1 false 1 List.length "s")
          (senderChunks 1 [4])).fs FileId.dest = some [4]) :=
  c7_verdict [4] 1 1 false 1 List.length "s" (by decide) (by decide)

/-- Receiver configuration for the C7 counterexample: an archive transfer
(should_unzip = true) whose metadata checksum does not match the digest of
the reassembled bytes. -/
def cfgMismatchZip : RcvCfg :=
  { chunksCount := 2, cpp := 1, shouldUnzip := true, checksum := 99,
    hash := List.length, sessionName := "sess" }

/-- C7 counterexample: on a mismatching archive transfer the receiver sends
"Error: checksum mismatch" and the destination file is nevertheless deleted
by the unconditional unzip step, refuting the claim that the destination is
not deleted in the mismatch case. -/
theorem c7_mismatch_deletes_archive_cex :
    (runTransfer cfgMismatchZip [[1], [2]]).isSome = true ∧
    ROut.errMsg "Error: checksum mismatch" ∈ (finalState cfgMismatchZip [[1], [2]]).outs ∧
    (finalState cfgMismatchZip [[1], [2]]).fs FileId.dest = none := by
  refine ⟨rfl, ?_, rfl⟩
  decide

/-- C10: on an archive transfer (should_unzip = true) whose checksum
verification fails, the receiver still performs the unzip into the
session-named directory and deletes the reassembled archive: the extraction
is not conditioned on the verification verdict. -/
theorem c10_unzip_regardless (B : List Nat) (c cpp : Nat) (chk : Nat)
    (hash : List Nat → Nat) (sn : String) (hc : 0 < c) (hB : B ≠ [])
    (hne : hash B ≠ chk) :
    (runTransfer (transferCfg B c cpp true chk hash sn) (senderChunks c B)).isSome = true ∧
    ROut.errMsg "Error: checksum mismatch" ∈
      (finalState (transferCfg B c cpp true chk hash sn) (senderChunks c B)).outs ∧
    ROut.unzipped sn ∈
      (finalState (transferCfg B c cpp true chk hash sn) (senderChunks c B)).outs ∧
    (finalState (transferCfg B c cpp true chk hash sn)
        (senderChunks c B)).fs FileId.dest = none := by
  obtain ⟨st2, h1, h2, h3, _⟩ := transfer_complete B c cpp true chk hash sn hc hB
  have hfs := finalState_eq _ _ _ h1
  refine ⟨by rw [h1]; rfl, ?_, ?_, ?_⟩
  · rw [hfs, h2]
    exact mem_transferOuts_err _ _ _ _ hne
  · rw [hfs, h2]
    exact mem_transferOuts_unzipped _ _ _ _ rfl
  · rw [hfs, h3]
    simp

theorem c10_unzip_regardless_witness :
    (runTransfer (transferCfg [1, 2] 1 1 true 99 List.length "sess")
        (senderChunks 1 [1, 2])).isSome = true ∧
    ROut.errMsg "Error: checksum mismatch" ∈
      (finalState (transferCfg [1, 2] 1 1 true 99 List.length "sess")
        (senderChunks 1 [1, 2])).outs ∧
    ROut.unzipped "sess" ∈
      (finalState (transferCfg [1, 2] 1 1 true 99 List.length "sess")
        (senderChunks 1 [1, 2])).outs ∧
    (finalState (transferCfg [1, 2] 1 1 true 99 List.length "sess")
        (senderChunks 1 [1, 2])).fs FileId.dest = none :=
  c10_unzip_regardless [1, 2] 1 1 99 List.length "sess" (by decide) (by decide)
    (by decide)

theorem serverRun_errored (ss : Sessions) (ws : Nat) (req : Request)
    (rest : List Request)
    (h : (dispatchReq ss req ws).errored = true) :
    serverRun ss ws (req :: rest)
      = (cleanup (dispatchReq ss req ws).ss ws, (dispatchReq ss req ws).outs) := by
  unfold serverRun
  dsimp only
  rw [h]
  simp

theorem dispatchReq_register (ss : Sessions) (req : Request) (ws : Nat)
    (h : req.action = "register") :
    dispatchReq ss req ws = handleRegister ss req ws := by
  unfold dispatchReq
  rw [h]
  rw [if_neg (by decide), if_neg (by decide), if_neg (by decide),
    if_neg (by decide), if_pos rfl]

theorem dispatchReq_offer (ss : Sessions) (req : Request) (ws : Nat)
    (h : req.action = "offer") :
    dispatchReq ss req ws = handleOffer ss req ws := by
  unfold dispatchReq
  rw [h]
  rw [if_neg (by decide), if_neg (by decide), if_neg (by decide), if_pos rfl]

theorem dispatchReq_answer (ss : Sessions) (req : Request) (ws : Nat)
    (h : req.action = "answer") :
    dispatchReq ss req ws = handleAnswer ss req ws := by
  unfold dispatchReq
  rw [h]
  rw [if_pos rfl]

theorem dispatchReq_candidate (ss : Sessions) (req : Request) (ws : Nat)
    (h : req.action = "candidate") :
    dispatchReq ss req ws = handleCandidate ss req ws := by
  unfold dispatchReq
  rw [h]
  rw [if_neg (by decide), if_neg (by decide), if_pos rfl]

theorem dispatchReq_cancel (ss : Sessions) (req : Request) (ws : Nat)
    (h : req.action = "cancel") :
    dispatchReq ss req ws = handleCancel ss req ws := by
  unfold dispatchReq
  rw [h]
  rw [if_neg (by decide), if_pos rfl]

theorem registerDispatch_sender (ss : Sessions) (req : Request) (ws : Nat)
    (h : req.role = some "sender") :
    registerDispatch ss req ws = registerSender ss req ws := by
  unfold registerDispatch
  rw [h, if_pos rfl]

theorem registerDispatch_receiver (ss : Sessions) (req : Request) (ws : Nat)
    (h : req.role = some "receiver") :
    registerDispatch ss req ws = registerReceiver ss req ws := by
  unfold registerDispatch
  rw [h]
  rw [if_neg (by decide), if_pos rfl]

/-- C5: registering as receiver into an absent session draws the error reply
"Session <name> does not exist" and a connection close with the session map
untouched; registering into an existing session with a free receiver slot
binds the slot and replies registered, then metadata, then the stored offer
when one is present (python truthiness: a stored empty offer is not
replayed), in that order. -/
theorem c5_register_receiver (ss : Sessions) (name : String) (ws : Nat) :
    (lookupS ss name = none →
      dispatchReq ss ⟨"register", name, some "receiver", none, none, none, none⟩ ws =
        { ss := ss,
          outs := [(ws, ServerMsg.statusError
            ("Session " ++ name ++ " does not exist"))],
          closeWs := true, errored := false }) ∧
    (∀ r : Session, lookupS ss name = some r → r.receiver = none →
      dispatchReq ss ⟨"register", name, some "receiver", none, none, none, none⟩ ws =
        { ss := setSession ss name { r with receiver := some ws },
          outs := [(ws, ServerMsg.statusRegistered),
                   (ws, ServerMsg.metadataMsg r.metadata)] ++
            (if truthyStr r.messages.offer then
              [(ws, ServerMsg.offerMsg r.messages.offer)] else []),
          closeWs := false, errored := false }) := by
  constructor
  · intro h
    rw [dispatchReq_register ss _ ws rfl]
    unfold handleRegister
    rw [h]
    rw [registerDispatch_receiver ss _ ws rfl]
    unfold registerReceiver
    rw [h]
  · intro r hr hrr
    rw [dispatchReq_register ss _ ws rfl]
    unfold handleRegister
    rw [hr]
    dsimp only
    have hslot : sessionSlot r (some "receiver") = Except.ok r.receiver := by
      unfold sessionSlot
      rw [if_neg (by decide), if_pos rfl]
    rw [hslot, hrr]
    dsimp only
    rw [registerDispatch_receiver ss _ ws rfl]
    unfold registerReceiver
    rw [hr]

/-- A populated one-session map used by the server witnesses: session "x"
holds a bound sender connection 1, an empty receiver slot, a stored offer
and stored metadata. -/
def recW : Session :=
  { sender := some 1, receiver := none,
    messages := { offer := some "o", answer := none, candidates := [] },
    metadata := some "m" }

def sessW : Sessions := [("x", recW)]

theorem c5_register_receiver_witness :
    dispatchReq sessW ⟨"register", "x", some "receiver", none, none, none, none⟩ 5 =
      { ss := setSession sessW "x" { recW with receiver := some 5 },
        outs := [(5, ServerMsg.statusRegistered),
                 (5, ServerMsg.metadataMsg recW.metadata)] ++
          (if truthyStr recW.messages.offer then
            [(5, ServerMsg.offerMsg recW.messages.offer)] else []),
        closeWs := false, errored := false } :=
  (c5_register_receiver sessW "x" 5).2 recW rfl rfl

/-- C8: a sender registration into an existing session whose sender slot is
unbound (for instance after the original sender disconnected while the
receiver stayed bound) replaces the entire session record with a fresh one:
the bound receiver connection, the stored metadata, the stored offer, answer
and candidate list are all discarded, and the registration succeeds with
status registered. -/
theorem c8_sender_rebind_discards (ss : Sessions) (name : String) (ws : Nat)
    (r : Session) (meta : Option String)
    (h : lookupS ss name = some r) (hs : r.sender = none) :
    (dispatchReq ss ⟨"register", name, some "sender", meta, none, none, none⟩ ws).outs
      = [(ws, ServerMsg.statusRegistered)] ∧
    lookupS (dispatchReq ss ⟨"register", name, some "sender", meta, none, none, none⟩ ws).ss
        name =
      some { sender := some ws, receiver := none,
             messages := { offer := none, answer := none, candidates := [] },
             metadata := meta } ∧
    (dispatchReq ss ⟨"register", name, some "sender", meta, none, none, none⟩ ws).closeWs
      = false ∧
    (dispatchReq ss ⟨"register", name, some "sender", meta, none, none, none⟩ ws).errored
      = false := by
  have hdisp : dispatchReq ss ⟨"register", name, some "sender", meta, none, none, none⟩ ws
      = registerSender ss ⟨"register", name, some "sender", meta, none, none, none⟩ ws := by
    rw [dispatchReq_register ss _ ws rfl]
    unfold handleRegister
    rw [h]
    dsimp only
    have hslot : sessionSlot r (some "sender") = Except.ok r.sender := by
      unfold sessionSlot
      rw [if_pos rfl]
    rw [hslot, hs]
    dsimp only
    rw [registerDispatch_sender ss _ ws rfl]
  rw [hdisp]
  unfold registerSender
  dsimp only
  exact ⟨rfl, lookupS_setSession _ _ _, rfl, rfl⟩

/-- A session map whose only session has the sender slot unbound but a bound
receiver and stored negotiation state, for the C8 witness: the receiver
connection 7, the stored offer, answer and candidate and the old metadata
all get discarded by the sender re-registration. -/
def recW8 : Session :=
  { sender := none, receiver := some 7,
    messages := { offer := some "o", answer := some "a",
                  candidates := [(some "receiver", some "c")] },
    metadata := some "old" }

def sessW8 : Sessions := [("x", recW8)]

theorem c8_sender_rebind_discards_witness :
    (dispatchReq sessW8 ⟨"register", "x", some "sender", some "new", none, none, none⟩ 9).outs
      = [(9, ServerMsg.statusRegistered)] ∧
    lookupS (dispatchReq sessW8
        ⟨"register", "x", some "sender", some "new", none, none, none⟩ 9).ss "x" =
      some { sender := some 9, receiver := none,
             messages := { offer := none, answer := none, candidates := [] },
             metadata := some "new" } ∧
    (dispatchReq sessW8
        ⟨"register", "x", some "sender", some "new", none, none, none⟩ 9).closeWs = false ∧
    (dispatchReq sessW8
        ⟨"register", "x", some "sender", some "new", none, none, none⟩ 9).errored = false :=
  c8_sender_rebind_discards sessW8 "x" 9 recW8 (some "new") rfl rfl

/-- C9: an offer, answer, candidate or cancel naming an unknown session hits
unguarded dict indexing and raises KeyError (and so does a candidate whose
target is neither "sender" nor "receiver", after its append to the stored
candidate list): no reply is sent on the connection and in particular no
"Invalid message", the message loop terminates without consuming the rest of
the stream, and cleanup runs. -/
theorem c9_unknown_session_keyerror (ss ss2 : Sessions) (ws : Nat) (name : String)
    (sdp tgt cand : Option String) (rest : List Request) :
    (lookupS ss name = none →
      ∀ act : String,
        act = "offer" ∨ act = "answer" ∨ act = "candidate" ∨ act = "cancel" →
        (dispatchReq ss ⟨act, name, none, none, tgt, sdp, cand⟩ ws).outs = [] ∧
        (dispatchReq ss ⟨act, name, none, none, tgt, sdp, cand⟩ ws).errored = true ∧
        serverRun ss ws (⟨act, name, none, none, tgt, sdp, cand⟩ :: rest)
          = (cleanup ss ws, [])) ∧
    (∀ r : Session, lookupS ss2 name = some r →
      tgt ≠ some "sender" → tgt ≠ some "receiver" →
      (dispatchReq ss2 ⟨"candidate", name, none, none, tgt, sdp, cand⟩ ws).outs = [] ∧
      (dispatchReq ss2 ⟨"candidate", name, none, none, tgt, sdp, cand⟩ ws).errored = true ∧
      serverRun ss2 ws (⟨"candidate", name, none, none, tgt, sdp, cand⟩ :: rest)
        = (cleanup (setSession ss2 name
            { r with messages := { r.messages with candidates :=
                r.messages.candidates ++ [(tgt, cand)] } }) ws, [])) := by
  constructor
  · intro h act hact
    rcases hact with hact | hact | hact | hact
    · subst hact
      have hd : dispatchReq ss ⟨"offer", name, none, none, tgt, sdp, cand⟩ ws =
          { ss := ss, outs := [], closeWs := false, errored := true } := by
        rw [dispatchReq_offer ss _ ws rfl]
        unfold handleOffer
        rw [h]
      exact ⟨by rw [hd], by rw [hd],
        by rw [serverRun_errored ss ws _ rest (by rw [hd]), hd]⟩
    · subst hact
      have hd : dispatchReq ss ⟨"answer", name, none, none, tgt, sdp, cand⟩ ws =
          { ss := ss, outs := [], closeWs := false, errored := true } := by
        rw [dispatchReq_answer ss _ ws rfl]
        unfold handleAnswer
        rw [h]
      exact ⟨by rw [hd], by rw [hd],
        by rw [serverRun_errored ss ws _ rest (by rw [hd]), hd]⟩
    · subst hact
      have hd : dispatchReq ss ⟨"candidate", name, none, none, tgt, sdp, cand⟩ ws =
          { ss := ss, outs := [], closeWs := false, errored := true } := by
        rw [dispatchReq_candidate ss _ ws rfl]
        unfold handleCandidate
        rw [h]
      exact ⟨by rw [hd], by rw [hd],
        by rw [serverRun_errored ss ws _ rest (by rw [hd]), hd]⟩
    · subst hact
      have hd : dispatchReq ss ⟨"cancel", name, none, none, tgt, sdp, cand⟩ ws =
          { ss := ss, outs := [], closeWs := false, errored := true } := by
        rw [dispatchReq_cancel ss _ ws rfl]
        unfold handleCancel
        rw [h]
      exact ⟨by rw [hd], by rw [hd],
        by rw [serverRun_errored ss ws _ rest (by rw [hd]), hd]⟩
  · intro r hr htgt1 htgt2
    have hd : dispatchReq ss2 ⟨"candidate", name, none, none, tgt, sdp, cand⟩ ws =
        { ss := setSession ss2 name
            { r with messages := { r.messages with candidates :=
                r.messages.candidates ++ [(tgt, cand)] } },
          outs := [], closeWs := false, errored := true } := by
      rw [dispatchReq_candidate ss2 _ ws rfl]
      unfold handleCandidate
      rw [hr]
      dsimp only
      have hslot : sessionSlot
          { r with messages := { r.messages with candidates :=
              r.messages.candidates ++ [(tgt, cand)] } } tgt = Except.error () := by
        unfold sessionSlot
        rw [if_neg htgt1, if_neg htgt2]
      rw [hslot]
    exact ⟨by rw [hd], by rw [hd],
      by rw [serverRun_errored ss2 ws _ rest (by rw [hd]), hd]⟩

def sessW9 : Sessions := [("a", recW)]

theorem c9_unknown_session_keyerror_witness :
    (dispatchReq sessW9 ⟨"offer", "b", none, none, none, some "sdp", none⟩ 3).outs = [] ∧
    (dispatchReq sessW9 ⟨"offer", "b", none, none, none, some "sdp", none⟩ 3).errored
      = true ∧
    serverRun sessW9 3 [⟨"offer", "b", none, none, none, some "sdp", none⟩]
      = (cleanup sessW9 3, []) :=
  (c9_unknown_session_keyerror sessW9 sessW9 3 "b" (some "sdp") none none []).1 rfl
    "offer" (Or.inl rfl)
